import Mathlib

/-!
Shallow embedding of the `youtube-transcript-plus` core
(`src/utils.ts` and `src/index.ts`) together with theorems checking the
natural-language specification against it.

Modelling conventions:
* JavaScript values that may be `undefined`/`null` are `Option`s; JS
  truthiness of an optional string (`undefined`, `null` and `""` are
  falsy) is the `jsTruthy` function below.
* Exceptions become `Except` results; the fixed error taxonomy of
  `src/errors.ts` is the inductive `YtError`.
* The injected transports are collaborators: the environment (`Env`)
  records the response each of the three call sites would receive, and
  every run function returns, besides its result, the ordered list of
  transport call sites actually invoked (`Stage`), so that frame
  properties ("this transport receives zero calls") are statable.
* Numeric cue fields (`parseFloat(m[1])`, `parseFloat(m[2])`) are
  represented by the literal captured decimal text, since the claims
  under check speak about the captured values themselves.
-/

namespace YoutubeTranscriptPlus

/-- Decides whether `sub` occurs as a contiguous substring of `s`
(the model of JavaScript `String.prototype.includes`). -/
def strContains (s sub : String) : Bool :=
  go s.toList sub.toList
where
  go : List Char → List Char → Bool
    | [], sub => sub.isEmpty
    | c :: cs, sub => sub.isPrefixOf (c :: cs) || go cs sub

/-- The characters after the first occurrence of `marker`, scanning
left to right, or `none` when `marker` does not occur. -/
def dropAfter (marker : List Char) : List Char → Option (List Char)
  | [] => if marker.isEmpty then some [] else none
  | c :: cs =>
      if marker.isPrefixOf (c :: cs) then some ((c :: cs).drop marker.length)
      else dropAfter marker cs

/-- The text after the first occurrence of `marker` in `s`, or `none`
when `marker` does not occur. -/
def afterFirst (marker s : String) : Option String :=
  (dropAfter marker.toList s.toList).map String.mk

/-- JS truthiness of an optional string: `undefined`/`null`/`""` are
falsy, every other string is truthy. -/
def jsTruthy (o : Option String) : Option String :=
  o.bind fun s => if s = "" then none else some s

/-- The fixed error taxonomy of `src/errors.ts` (each constructor is one
`YoutubeTranscript*Error` class, carrying the same data its constructor
receives). -/
inductive YtError where
  | invalidVideoId
  | videoUnavailable (videoId : String)
  | tooManyRequests
  | transcriptsDisabled (videoId : String)
  | transcriptNotAvailable (videoId : String)
  | languageNotAvailable (lang : String) (availableLangs : List String) (videoId : String)
deriving Repr, DecidableEq

instance {ε α : Type} [DecidableEq ε] [DecidableEq α] : DecidableEq (Except ε α) := fun a b =>
  match a, b with
  | .error x, .error y =>
      if h : x = y then .isTrue (congrArg Except.error h)
      else .isFalse fun hh => h (Except.error.inj hh)
  | .ok x, .ok y =>
      if h : x = y then .isTrue (congrArg Except.ok h)
      else .isFalse fun hh => h (Except.ok.inj hh)
  | .error _, .ok _ => .isFalse fun hh => Except.noConfusion hh
  | .ok _, .error _ => .isFalse fun hh => Except.noConfusion hh

/-- Characters admissible inside an extracted 11-character video id. -/
def idChar (c : Char) : Bool :=
  c.isAlphanum || c = '-' || c = '_'

/-- Modelled from the spec: the regular expression `RE_YOUTUBE` lives in
`src/constants.ts`, which is not part of the sources at hand.  Per the
spec (§4.1) the resolver, for a non-11-character input, attempts "to
extract an 11-character ID from recognized URL shapes (standard
watch-page URL with a query parameter, and short-link URL forms)".  The
model recognises the watch-page shape (a `youtube.com` URL carrying a
`v=` query parameter) and the short-link shape (`youtu.be/<id>`), and
extracts the 11 identifier characters that follow the marker.
`grab11` is the common tail: the 11 characters following a recognised
marker, accepted only when all are identifier characters. -/
def grab11 (rest : String) : Option String :=
  if (rest.toList.take 11).length = 11 && (rest.toList.take 11).all idChar then
    some (String.mk (rest.toList.take 11))
  else none

/-- Modelled from the spec (see `grab11`): the candidate URL shapes,
tried in order — the watch-page shape first, the short-link shape
second. -/
def extractEmbeddedId (s : String) : Option String :=
  match (if strContains s "youtube.com/" then (afterFirst "v=" s).bind grab11 else none) with
  | some id => some id
  | none => (afterFirst "youtu.be/" s).bind grab11

/-- `retrieveVideoId` from `src/utils.ts`: an 11-character input is
returned unchanged; otherwise the URL pattern match is attempted; on no
match the call fails with the invalid-video-id error. -/
def retrieveVideoId (videoId : String) : Except YtError String :=
  if videoId.length = 11 then .ok videoId
  else
    match extractEmbeddedId videoId with
    | some id => .ok id
    | none => .error .invalidVideoId

/-- One entry of the platform's `captionTracks` array.  The TS code
accesses only `languageCode`, `baseUrl` and `url` on it; each may be
absent in the untyped (`any`) JSON. -/
structure CaptionTrack where
  languageCode : Option String
  baseUrl : Option String
  url : Option String
deriving Repr, DecidableEq

/-- The `playerCaptionsTracklistRenderer` object.  `captionTracks` is
`some l` when the field holds an array `l`, and `none` when the field
is missing or not an array (the code's `!Array.isArray(tracks)`). -/
structure Tracklist where
  captionTracks : Option (List CaptionTrack)
deriving Repr, DecidableEq

/-- The `captions` field of the player JSON. -/
structure CaptionsField where
  playerCaptionsTracklistRenderer : Option Tracklist
deriving Repr, DecidableEq

/-- The parts of the Innertube player JSON read by
`_getCaptionTrackMetadata`: the `captions` field, a possible top-level
`playerCaptionsTracklistRenderer`, and `playabilityStatus.status`. -/
structure PlayerJson where
  captions : Option CaptionsField
  playerCaptionsTracklistRenderer : Option Tracklist
  playabilityStatus : Option String
deriving Repr, DecidableEq

/-- `playerJson?.captions?.playerCaptionsTracklistRenderer ??
playerJson?.playerCaptionsTracklistRenderer` (index.ts:104-106): the
nested path is preferred, the top-level path is the fallback. -/
def tracklistOf (pj : PlayerJson) : Option Tracklist :=
  match pj.captions.bind fun c => c.playerCaptionsTracklistRenderer with
  | some t => some t
  | none => pj.playerCaptionsTracklistRenderer

/-- `tracklist?.captionTracks` (index.ts:108). -/
def tracksOf (pj : PlayerJson) : Option (List CaptionTrack) :=
  (tracklistOf pj).bind fun tl => tl.captionTracks

/-- `playerJson?.playabilityStatus?.status === 'OK'` (index.ts:110). -/
def isPlayableOk (pj : PlayerJson) : Bool :=
  pj.playabilityStatus = some "OK"

/-- `tracks.map((t) => t.languageCode).filter(Boolean)` (index.ts:126):
the language codes of the tracks, with missing and empty codes
dropped. -/
def availableLanguagesOf (tracks : List CaptionTrack) : List String :=
  tracks.filterMap fun t => jsTruthy t.languageCode

/-- Truthiness of the configured `lang` (`undefined` and `""` falsy). -/
def langTruthy (lang : Option String) : Bool :=
  (jsTruthy lang).isSome

/-- `lang ? tracks.find((t) => t.languageCode === lang) : tracks[0]`
(index.ts:129). -/
def selectedTrackOf (lang : Option String) (tracks : List CaptionTrack) :
    Option CaptionTrack :=
  if langTruthy lang then tracks.find? fun t => t.languageCode = lang
  else tracks.head?

/-- `selectedTrack.baseUrl || selectedTrack.url` followed by the
`if (!transcriptUrl)` truthiness guard (index.ts:136-139): `some u`
exactly when the chosen raw URL is truthy. -/
def rawTranscriptUrlOf (t : CaptionTrack) : Option String :=
  match jsTruthy t.baseUrl with
  | some u => some u
  | none => jsTruthy t.url

/-- Splits a character list on `&`, the character-level analogue of
`splitOn "&"` (an empty input yields one empty part). -/
def splitAmp : List Char → List (List Char)
  | [] => [[]]
  | c :: cs =>
      let r := splitAmp cs
      if c = '&' then [] :: r
      else
        match r with
        | [] => [[c]]
        | h :: t => (c :: h) :: t

/-- Rejoins what `splitAmp` separated, with `&` between the parts. -/
def joinAmp : List (List Char) → List Char
  | [] => []
  | [x] => x
  | x :: xs => x ++ '&' :: joinAmp xs

/-- `transcriptUrl.replace(/&fmt=[^&]+$/, '')` (index.ts:140): drops a
trailing `&fmt=<value>` query parameter, where the value is non-empty
and free of `&`. -/
def stripTrailingFmt (s : String) : String :=
  let parts := splitAmp s.toList
  if parts.length ≥ 2 then
    let last := (parts.getLast?).getD []
    if ("fmt=".toList).isPrefixOf last ∧ last.length > 4 then
      String.mk (joinAmp parts.dropLast)
    else s
  else s

/-- `transcriptUrl.replace(/^https:\/\//, 'http://')` (index.ts:143). -/
def downgradeHttps (s : String) : String :=
  if ("https://".toList).isPrefixOf s.toList then
    String.mk ("http://".toList ++ s.toList.drop 8)
  else s

/-- The configuration fields of `TranscriptConfig` that the pipeline
reads.  The cache collaborator is a boolean presence flag here; its
behaviour for the one lookup/store a call performs sits in `Env`. -/
structure Config where
  lang : Option String := none
  disableHttps : Bool := false
  cache : Bool := false
deriving Repr, DecidableEq

/-- The metadata aggregate returned by the shared discovery helper
(`CaptionTrackMetadata`, index.ts:15-20).  `selectedLanguage` is the
selected track's `languageCode`, which the untyped JSON may lack. -/
structure CaptionTrackMetadata where
  identifier : String
  transcriptUrl : String
  selectedLanguage : Option String
  availableLanguages : List String
deriving Repr, DecidableEq

/-- The tail of `_getCaptionTrackMetadata` once a non-empty track array
is in hand (index.ts:126-151): language selection, the transcript-URL
fallback and guard, and the URL rewrites. -/
def selectAndBuild (cfg : Config) (identifier : String)
    (tracks : List CaptionTrack) : Except YtError CaptionTrackMetadata :=
  match selectedTrackOf cfg.lang tracks with
  | none =>
      .error (.languageNotAvailable (cfg.lang.getD "")
        (availableLanguagesOf tracks) identifier)
  | some t =>
      match rawTranscriptUrlOf t with
      | none => .error (.transcriptNotAvailable identifier)
      | some rawUrl =>
          .ok { identifier := identifier,
                transcriptUrl :=
                  if cfg.disableHttps then downgradeHttps (stripTrailingFmt rawUrl)
                  else stripTrailingFmt rawUrl,
                selectedLanguage := t.languageCode,
                availableLanguages := availableLanguagesOf tracks }

/-- The caption classification and selection of
`_getCaptionTrackMetadata` applied to the parsed player JSON
(index.ts:104-151). -/
def classifyPlayerJson (cfg : Config) (identifier : String)
    (pj : PlayerJson) : Except YtError CaptionTrackMetadata :=
  if pj.captions.isNone || (tracklistOf pj).isNone then
    if isPlayableOk pj then .error (.transcriptsDisabled identifier)
    else .error (.transcriptNotAvailable identifier)
  else
    match tracksOf pj with
    | none => .error (.transcriptsDisabled identifier)
    | some [] => .error (.transcriptsDisabled identifier)
    | some tracks => selectAndBuild cfg identifier tracks

/-- Generic model of one regex alternative used for the API key
(index.ts:65-67): after the first occurrence of the literal `marker`,
capture a non-empty run of characters on which `stop` is false, and
require the literal `closing` to follow the captured run. -/
def captureBetween (marker : String) (stop : Char → Bool)
    (closing : List Char) (body : String) : Option String :=
  (afterFirst marker body).bind fun rest =>
    let cs := rest.toList
    let captured := cs.takeWhile fun c => !stop c
    if captured.isEmpty then none
    else if closing.isPrefixOf (cs.drop captured.length) then
      some (String.mk captured)
    else none

/-- The two-pattern API-key search of index.ts:65-67: the plain-JSON
pattern `"INNERTUBE_API_KEY":"([^"]+)"` first, the escaped-JSON variant
second. -/
def extractApiKey (body : String) : Option String :=
  match captureBetween "\"INNERTUBE_API_KEY\":\"" (fun c => c = '"') ['"'] body with
  | some k => some k
  | none =>
      captureBetween "INNERTUBE_API_KEY\\\":\\\""
        (fun c => c = '\\' || c = '"') ['\\', '"'] body

/-- An HTTP-response-like value as the injected transports return it:
`ok`, `status`, and the body text. -/
structure HttpResponse where
  ok : Bool
  status : Nat
  text : String
deriving Repr, DecidableEq

/-- The three transport call sites (`videoFetch`, `playerFetch`,
`transcriptFetch`, each defaulting to `defaultFetch`). -/
inductive Stage where
  | video
  | player
  | transcript
deriving Repr, DecidableEq

/-- Modelled from the spec: the cue pattern `RE_XML_TRANSCRIPT` lives in
`src/constants.ts`, which is not part of the sources at hand.  Per the
spec (§4.5) it extracts, per cue record, "start offset, duration, and
text content (three captured fields in that order)"; a `Cue` is one such
match, its numeric captures kept as their literal text. -/
structure Cue where
  start : String
  dur : String
  text : String
deriving Repr, DecidableEq

/-- One parsed segment (`TranscriptResponse`), with the two numeric
fields represented by the captured text handed to `parseFloat`, and
`lang` optional since the untyped selected track may lack a code. -/
structure TranscriptResponse where
  text : String
  duration : String
  offset : String
  lang : Option String
deriving Repr, DecidableEq

/-- The transcript-payload response: `ok`, `status`, and the body
abstracted to the ordered cue records the fixed pattern matches in it
(`[...transcriptBody.matchAll(RE_XML_TRANSCRIPT)]`, index.ts:214). -/
structure TranscriptHttpResponse where
  ok : Bool
  status : Nat
  cues : List Cue
deriving Repr, DecidableEq

/-- Observable behaviour of `await cache.get(cacheKey)` followed by the
guarded `JSON.parse` (index.ts:189-196): the call may throw; return a
falsy value (`null`/`undefined`/`""`); return a truthy string on which
`JSON.parse` throws; or return a truthy string deserializing to a
segment list. -/
inductive CacheGetResult where
  | raised
  | nullOrEmpty
  | unparseable
  | parseable (segments : List TranscriptResponse)
deriving Repr, DecidableEq

/-- The collaborators' behaviour for one call: the responses the three
transports would return, and the cache's behaviour at its two uses. -/
structure Env where
  videoRes : HttpResponse
  playerRes : HttpResponse
  playerJson : PlayerJson
  transcriptRes : TranscriptHttpResponse
  cacheGet : CacheGetResult
  cacheSetRaises : Bool
deriving Repr, DecidableEq

/-- The cache key `yt:transcript:` + identifier + `:` + (`lang ?? ''`)
of index.ts:187. -/
def cacheKeyOf (identifier : String) (lang : Option String) : String :=
  "yt:transcript:" ++ identifier ++ ":" ++ lang.getD ""

/-- The shared discovery helper `_getCaptionTrackMetadata`
(index.ts:40-152): resolve the id, fetch the watch page (bot check, key
extraction), call the player endpoint, classify and select.  Returns
the result together with the transports invoked, in order. -/
def _getCaptionTrackMetadata (cfg : Config) (env : Env) (videoId : String) :
    Except YtError CaptionTrackMetadata × List Stage :=
  match retrieveVideoId videoId with
  | .error e => (.error e, [])
  | .ok identifier =>
      if !env.videoRes.ok then
        (.error (.videoUnavailable identifier), [.video])
      else if strContains env.videoRes.text "class=\"g-recaptcha\"" then
        (.error .tooManyRequests, [.video])
      else
        match extractApiKey env.videoRes.text with
        | none => (.error (.transcriptNotAvailable identifier), [.video])
        | some _ =>
            if !env.playerRes.ok then
              (.error (.videoUnavailable identifier), [.video, .player])
            else
              (classifyPlayerJson cfg identifier env.playerJson, [.video, .player])

/-- The public result of an availability check. -/
structure TranscriptAvailability where
  videoId : String
  available : Bool
  transcriptUrl : String
  selectedLanguage : Option String
  availableLanguages : List String
deriving Repr, DecidableEq

/-- `checkTranscriptAvailability` (index.ts:163-173): run the shared
discovery helper and repackage its metadata. -/
def checkTranscriptAvailability (cfg : Config) (env : Env) (videoId : String) :
    Except YtError TranscriptAvailability × List Stage :=
  match _getCaptionTrackMetadata cfg env videoId with
  | (.error e, tr) => (.error e, tr)
  | (.ok md, tr) =>
      (.ok { videoId := md.identifier, available := true,
             transcriptUrl := md.transcriptUrl,
             selectedLanguage := md.selectedLanguage,
             availableLanguages := md.availableLanguages }, tr)

/-- Outcome type of a full fetch: a classified error, an uncaught
exception escaping from `cache.get`, or the segment list. -/
inductive FetchError where
  | classified (e : YtError)
  | cacheGetRaised
deriving Repr, DecidableEq

/-- One element of the `results.map` of index.ts:215-220: `text` from
the third capture, `duration` from the second, `offset` from the first,
`lang` from `lang ?? selectedLanguage`. -/
def mkSegment (lang selectedLanguage : Option String) (m : Cue) :
    TranscriptResponse :=
  { text := m.text, duration := m.dur, offset := m.start,
    lang := match lang with | some l => some l | none => selectedLanguage }

/-- `fetchTranscript` (index.ts:175-236): shared discovery first, then
the cache lookup, then the transcript fetch, parse, emptiness check and
the swallowed cache store. -/
def fetchTranscript (cfg : Config) (env : Env) (videoId : String) :
    Except FetchError (List TranscriptResponse) × List Stage :=
  match _getCaptionTrackMetadata cfg env videoId with
  | (.error e, tr) => (.error (.classified e), tr)
  | (.ok md, tr) =>
      match (if cfg.cache then
               match env.cacheGet with
               | .raised => some (.error .cacheGetRaised)
               | .parseable segs => some (.ok segs)
               | .nullOrEmpty => none
               | .unparseable => none
             else none :
             Option (Except FetchError (List TranscriptResponse))) with
      | some r => (r, tr)
      | none =>
          if !env.transcriptRes.ok then
            if env.transcriptRes.status = 429 then
              (.error (.classified .tooManyRequests), tr ++ [.transcript])
            else
              (.error (.classified (.transcriptNotAvailable md.identifier)),
               tr ++ [.transcript])
          else if (env.transcriptRes.cues.map (mkSegment cfg.lang md.selectedLanguage)).isEmpty then
            (.error (.classified (.transcriptNotAvailable md.identifier)),
             tr ++ [.transcript])
          else
            match (if cfg.cache && env.cacheSetRaises then .error () else .ok () :
                   Except Unit Unit) with
            | .ok _ =>
                (.ok (env.transcriptRes.cues.map (mkSegment cfg.lang md.selectedLanguage)),
                 tr ++ [.transcript])
            | .error _ =>
                (.ok (env.transcriptRes.cues.map (mkSegment cfg.lang md.selectedLanguage)),
                 tr ++ [.transcript])

/-! Concrete fixtures used by witnesses and counterexamples. -/

/-- A watch-page body containing the plain-JSON API-key pattern and no
bot-challenge marker. -/
def pageBodyOk : String := "js \"INNERTUBE_API_KEY\":\"key123\" rest"

def okVideoRes : HttpResponse := { ok := true, status := 200, text := pageBodyOk }

def okPlayerRes : HttpResponse := { ok := true, status := 200, text := "" }

def trackEn : CaptionTrack :=
  { languageCode := some "en", baseUrl := some "https://cap.example/t", url := none }

def trackEs : CaptionTrack :=
  { languageCode := some "es", baseUrl := some "https://cap.example/s", url := none }

def tracklistGood : Tracklist := { captionTracks := some [trackEn, trackEs] }

/-- A well-formed player response: captions nested under the `captions`
field, two tracks, playability `OK`. -/
def pjGood : PlayerJson :=
  { captions := some { playerCaptionsTracklistRenderer := some tracklistGood },
    playerCaptionsTracklistRenderer := none,
    playabilityStatus := some "OK" }

def cueHello : Cue := { start := "0.42", dur := "1.5", text := "hello" }

def okTranscriptRes : TranscriptHttpResponse :=
  { ok := true, status := 200, cues := [cueHello] }

/-- A fully successful environment with no cache entry. -/
def envHappy : Env :=
  { videoRes := okVideoRes, playerRes := okPlayerRes, playerJson := pjGood,
    transcriptRes := okTranscriptRes, cacheGet := .nullOrEmpty,
    cacheSetRaises := false }

def vidId : String := "dQw4w9WgXcQ"

/-- The metadata discovery yields on `envHappy` with no requested
language. -/
def mdHappy : CaptionTrackMetadata :=
  { identifier := vidId, transcriptUrl := "https://cap.example/t",
    selectedLanguage := some "en", availableLanguages := ["en", "es"] }

def cfgCache : Config := { cache := true }

def seg1 : TranscriptResponse :=
  { text := "cached", duration := "1.0", offset := "0.0", lang := some "en" }

def envCacheHit : Env := { envHappy with cacheGet := .parseable [seg1] }

def envCacheRaise : Env := { envHappy with cacheGet := .raised }

def envCacheEmptyList : Env := { envHappy with cacheGet := .parseable [] }

/-- A track carrying no `languageCode` at all. -/
def trackNoCode : CaptionTrack :=
  { languageCode := none, baseUrl := some "https://cap.example/x", url := none }

def tracklistNoCode : Tracklist := { captionTracks := some [trackNoCode] }

def pjNoCode : PlayerJson :=
  { captions := some { playerCaptionsTracklistRenderer := some tracklistNoCode },
    playerCaptionsTracklistRenderer := none,
    playabilityStatus := some "OK" }

def mdNoCode : CaptionTrackMetadata :=
  { identifier := vidId, transcriptUrl := "https://cap.example/x",
    selectedLanguage := none, availableLanguages := [] }

def tracklistEmpty : Tracklist := { captionTracks := some [] }

/-- A player response whose track-list structure sits only at the top
level (no `captions` field) and holds an empty track array, with
playability unconfirmed. -/
def pjTopOnlyEmpty : PlayerJson :=
  { captions := none,
    playerCaptionsTracklistRenderer := some tracklistEmpty,
    playabilityStatus := none }

def tracklistEnOnly : Tracklist := { captionTracks := some [trackEn] }

/-- A player response whose non-empty track-list structure sits only at
the top level (no `captions` field), for a playable video. -/
def pjTopOnly : PlayerJson :=
  { captions := none,
    playerCaptionsTracklistRenderer := some tracklistEnOnly,
    playabilityStatus := some "OK" }

/-- A track with no `baseUrl` but a usable `url`. -/
def trackUrlOnly : CaptionTrack :=
  { languageCode := some "en", baseUrl := none, url := some "https://cap.example/u" }

/-- A track with neither `baseUrl` nor `url`. -/
def trackNoUrls : CaptionTrack :=
  { languageCode := some "en", baseUrl := none, url := none }

def tracklistUrlOnly : Tracklist := { captionTracks := some [trackUrlOnly] }

def pjUrlOnly : PlayerJson :=
  { captions := some { playerCaptionsTracklistRenderer := some tracklistUrlOnly },
    playerCaptionsTracklistRenderer := none,
    playabilityStatus := some "OK" }

def tracklistNoUrls : Tracklist := { captionTracks := some [trackNoUrls] }

def pjNoUrls : PlayerJson :=
  { captions := some { playerCaptionsTracklistRenderer := some tracklistNoUrls },
    playerCaptionsTracklistRenderer := none,
    playabilityStatus := some "OK" }

def envUrlOnly : Env := { envHappy with playerJson := pjUrlOnly }

def envNoUrls : Env := { envHappy with playerJson := pjNoUrls }

/-- A player response with no caption structure anywhere, playable. -/
def pjAbsentOk : PlayerJson :=
  { captions := none, playerCaptionsTracklistRenderer := none,
    playabilityStatus := some "OK" }

/-- A player response with no caption structure anywhere, playability
unconfirmed. -/
def pjAbsentBad : PlayerJson :=
  { captions := none, playerCaptionsTracklistRenderer := none,
    playabilityStatus := none }

/-- A playable response with the captions structure present but an empty
track array. -/
def pjEmptyTracks : PlayerJson :=
  { captions := some { playerCaptionsTracklistRenderer := some tracklistEmpty },
    playerCaptionsTracklistRenderer := none,
    playabilityStatus := some "OK" }

/-- A response with a `captions` field lacking the nested renderer, and
the track list at the top level: the one configuration in which the
fallback path is actually taken. -/
def pjCapNoRenderer : PlayerJson :=
  { captions := some { playerCaptionsTracklistRenderer := none },
    playerCaptionsTracklistRenderer := some tracklistGood,
    playabilityStatus := some "OK" }

/-- The invariant claimed for discovery results: the selected language
exists and is listed among the available languages. -/
def selectedLanguageListed (md : CaptionTrackMetadata) : Prop :=
  match md.selectedLanguage with
  | some l => l ∈ md.availableLanguages
  | none => False

/-! Helper lemmas shared by several claim theorems, and concrete
evaluations anchoring the embedding. -/

/-- The availability check on the happy-path environment, evaluated. -/
theorem checkAvailability_happy_eval :
    checkTranscriptAvailability { } envHappy vidId =
      (.ok { videoId := vidId, available := true,
             transcriptUrl := "https://cap.example/t",
             selectedLanguage := some "en",
             availableLanguages := ["en", "es"] },
       [.video, .player]) := by
  rfl

/-- The resolver on the short-link URL shape, evaluated. -/
theorem retrieveVideoId_shortlink_eval :
    retrieveVideoId "https://youtu.be/dQw4w9WgXcQ" = .ok "dQw4w9WgXcQ" := by
  rfl

/-- The trailing format-override parameter is stripped. -/
theorem stripTrailingFmt_eval :
    stripTrailingFmt "https://cap.example/t?a=1&fmt=srv3" = "https://cap.example/t?a=1" := by
  rfl

theorem grab11_length {r id : String} (h : grab11 r = some id) : id.length = 11 := by
  unfold grab11 at h
  split at h
  · next hc =>
      cases h
      rw [Bool.and_eq_true] at hc
      have h11 := hc.1
      exact of_decide_eq_true h11
  · exact absurd h (by simp)

theorem extractEmbeddedId_length {s id : String} (h : extractEmbeddedId s = some id) :
    id.length = 11 := by
  unfold extractEmbeddedId at h
  split at h
  · next id' heq =>
      cases h
      by_cases hy : strContains s "youtube.com/" = true
      · rw [if_pos hy] at heq
        obtain ⟨r, -, hg⟩ := Option.bind_eq_some.mp heq
        exact grab11_length hg
      · rw [if_neg hy] at heq
        cases heq
  · obtain ⟨r, -, hg⟩ := Option.bind_eq_some.mp h
    exact grab11_length hg

/-- The discovery helper calls only the watch-page and player
transports, in that order, stopping early on failure. -/
theorem meta_trace_cases (cfg : Config) (env : Env) (videoId : String) :
    (_getCaptionTrackMetadata cfg env videoId).2 = [] ∨
    (_getCaptionTrackMetadata cfg env videoId).2 = [Stage.video] ∨
    (_getCaptionTrackMetadata cfg env videoId).2 = [Stage.video, Stage.player] := by
  unfold _getCaptionTrackMetadata
  repeat' split
  all_goals simp

/-- A successful discovery has invoked exactly the watch-page and the
player transports. -/
theorem meta_ok_trace {cfg : Config} {env : Env} {videoId : String}
    {md : CaptionTrackMetadata} {tr : List Stage}
    (h : _getCaptionTrackMetadata cfg env videoId = (.ok md, tr)) :
    tr = [Stage.video, Stage.player] := by
  unfold _getCaptionTrackMetadata at h
  repeat' split at h
  all_goals simp_all

/-- The availability check's transport trace is the discovery
helper's. -/
theorem checkAvailability_trace (cfg : Config) (env : Env) (videoId : String) :
    (checkTranscriptAvailability cfg env videoId).2 =
      (_getCaptionTrackMetadata cfg env videoId).2 := by
  unfold checkTranscriptAvailability
  split <;> simp_all

/-! Claim C8. -/

/-- C8: `checkTranscriptAvailability` never issues the transcript-payload
fetch: for every configuration, collaborator behaviour and input string,
the transcript transport call site is absent from the availability
check's transport trace, which contains at most the watch-page and
player requests. -/
theorem c8_availability_never_fetches_transcript
    (cfg : Config) (env : Env) (videoId : String) :
    Stage.transcript ∉ (checkTranscriptAvailability cfg env videoId).2 := by
  rw [checkAvailability_trace]
  rcases meta_trace_cases cfg env videoId with h | h | h <;> rw [h] <;> decide

/-! Claim C9. -/

/-- C9: the Resolver returns an 11-character input unchanged; otherwise
it returns exactly the 11-character id embedded in a recognised URL
shape; otherwise it fails with the invalid-identifier error; and every
identifier it emits has exactly 11 characters.  (The Resolver is a pure
function of the input string: no transport is involved.) -/
theorem c9_resolver_spec (s : String) :
    (s.length = 11 → retrieveVideoId s = .ok s) ∧
    (s.length ≠ 11 → ∀ id, extractEmbeddedId s = some id → retrieveVideoId s = .ok id) ∧
    (s.length ≠ 11 → extractEmbeddedId s = none →
      retrieveVideoId s = .error .invalidVideoId) ∧
    (∀ id, retrieveVideoId s = .ok id → id.length = 11) := by
  refine ⟨fun h => by simp [retrieveVideoId, h],
          fun h id hid => by simp [retrieveVideoId, h, hid],
          fun h hn => by simp [retrieveVideoId, h, hn],
          fun id hid => ?_⟩
  unfold retrieveVideoId at hid
  by_cases h : s.length = 11
  · rw [if_pos h] at hid
    cases hid
    exact h
  · rw [if_neg h] at hid
    cases he : extractEmbeddedId s with
    | none => rw [he] at hid; cases hid
    | some j =>
        rw [he] at hid
        cases hid
        exact extractEmbeddedId_length he

/-- Witness for C9 covering all three branches at concrete inputs. -/
theorem c9_resolver_spec_witness :
    retrieveVideoId "dQw4w9WgXcQ" = .ok "dQw4w9WgXcQ" ∧
    retrieveVideoId "https://www.youtube.com/watch?v=dQw4w9WgXcQ" = .ok "dQw4w9WgXcQ" ∧
    retrieveVideoId "https://example.com" = .error .invalidVideoId :=
  ⟨(c9_resolver_spec "dQw4w9WgXcQ").1 (by decide),
   (c9_resolver_spec "https://www.youtube.com/watch?v=dQw4w9WgXcQ").2.1
     (by decide) "dQw4w9WgXcQ" (by rfl),
   (c9_resolver_spec "https://example.com").2.2.1 (by decide) (by rfl)⟩

/-! Claim C6. -/

/-- C6: with a (non-empty) requested language the selector takes the
first track whose language code equals it exactly; when no track
matches, the operation fails with `LanguageNotAvailable` carrying the
requested language, the unfiltered `availableLanguages` sequence and
the identifier; and with no requested language the first track in
platform order is selected. -/
theorem c6_language_selection (identifier L : String) (hL : L ≠ "")
    (tracks : List CaptionTrack) (cfg : Config) (hcfg : cfg.lang = some L) :
    (∀ pre t post, tracks = pre ++ t :: post →
        (∀ t' ∈ pre, t'.languageCode ≠ some L) → t.languageCode = some L →
        selectedTrackOf (some L) tracks = some t) ∧
    ((∀ t ∈ tracks, t.languageCode ≠ some L) →
        selectAndBuild cfg identifier tracks =
          .error (.languageNotAvailable L (availableLanguagesOf tracks) identifier)) ∧
    (∀ tracks' : List CaptionTrack, selectedTrackOf none tracks' = tracks'.head?) := by
  have hTruthy : langTruthy (some L) = true := by
    simp [langTruthy, jsTruthy, hL]
  refine ⟨?_, ?_, ?_⟩
  · intro pre t post hsplit hpre ht
    subst hsplit
    simp only [selectedTrackOf, hTruthy, if_pos]
    induction pre with
    | nil => simp [List.find?, ht]
    | cons a as ih =>
        have ha : (a.languageCode = some L) = False := by
          simp [hpre a (by simp)]
        simp only [List.cons_append, List.find?]
        rw [decide_eq_false (by simp [ha])]
        exact ih fun t' ht' => hpre t' (by simp [ht'])
  · intro hnone
    have hfind : tracks.find? (fun t => t.languageCode = some L) = none := by
      rw [List.find?_eq_none]
      intro t ht
      simp [hnone t ht]
    unfold selectAndBuild
    rw [hcfg]
    simp [selectedTrackOf, hTruthy, hfind]
  · intro tracks'
    simp [selectedTrackOf, langTruthy, jsTruthy]

/-- Witness for C6: the concrete two-track discovery scenario of the
spec, exercising all three conjuncts. -/
theorem c6_language_selection_witness :
    selectedTrackOf (some "es") [trackEn, trackEs] = some trackEs ∧
    selectAndBuild { lang := some "fr" } "dQw4w9WgXcQ" [trackEn, trackEs] =
      .error (.languageNotAvailable "fr" ["en", "es"] "dQw4w9WgXcQ") ∧
    selectedTrackOf none [trackEn, trackEs] = some trackEn :=
  ⟨(c6_language_selection "dQw4w9WgXcQ" "es" (by decide) [trackEn, trackEs]
      { lang := some "es" } rfl).1 [trackEn] trackEs [] rfl (by decide) rfl,
   (c6_language_selection "dQw4w9WgXcQ" "fr" (by decide) [trackEn, trackEs]
      { lang := some "fr" } rfl).2.1 (by decide),
   (c6_language_selection "dQw4w9WgXcQ" "es" (by decide) [trackEn, trackEs]
      { lang := some "es" } rfl).2.2 [trackEn, trackEs]⟩

/-! Inversion lemmas for the classification stage. -/

theorem selectAndBuild_ok_inv {cfg : Config} {identifier : String}
    {tracks : List CaptionTrack} {md : CaptionTrackMetadata}
    (h : selectAndBuild cfg identifier tracks = .ok md) :
    ∃ t, selectedTrackOf cfg.lang tracks = some t ∧
      md.selectedLanguage = t.languageCode ∧
      md.availableLanguages = availableLanguagesOf tracks ∧
      md.identifier = identifier := by
  unfold selectAndBuild at h
  split at h
  · simp at h
  · next t heq =>
      split at h
      · simp at h
      · cases h
        exact ⟨t, heq, rfl, rfl, rfl⟩

theorem classify_ok_inv {cfg : Config} {identifier : String}
    {pj : PlayerJson} {md : CaptionTrackMetadata}
    (h : classifyPlayerJson cfg identifier pj = .ok md) :
    ∃ tracks, tracksOf pj = some tracks ∧ tracks ≠ [] ∧
      selectAndBuild cfg identifier tracks = .ok md := by
  unfold classifyPlayerJson at h
  split at h
  · split at h <;> simp at h
  · split at h
    · simp at h
    · simp at h
    · next xs hne heq => exact ⟨xs, heq, hne, h⟩

theorem find?_languageCode_eq {lang : Option String} {tracks : List CaptionTrack}
    {t : CaptionTrack}
    (h : tracks.find? (fun tr => tr.languageCode = lang) = some t) :
    t.languageCode = lang := by
  induction tracks with
  | nil => cases h
  | cons a as ih =>
      simp only [List.find?] at h
      split at h
      · next hp => cases h; exact of_decide_eq_true hp
      · exact ih h

theorem selectedTrackOf_mem {lang : Option String} {tracks : List CaptionTrack}
    {t : CaptionTrack} (h : selectedTrackOf lang tracks = some t) : t ∈ tracks := by
  unfold selectedTrackOf at h
  split at h
  · exact List.mem_of_find?_eq_some h
  · cases tracks with
    | nil => cases h
    | cons a as =>
        simp only [List.head?, Option.some.injEq] at h
        subst h
        exact List.mem_cons_self _ _

/-! Claim C5. -/

/-- C5 (amended): when discovery succeeds, the returned
`selectedLanguage`, provided the selected track carried a non-empty
language code, is listed in the returned `availableLanguages`; in
particular this holds whenever a (truthy) language was requested.  (The
unamended universal claim fails when the selected default track has a
missing or empty `languageCode`, which the `filter(Boolean)` derivation
drops from `availableLanguages`.) -/
theorem c5_selected_language_membership (cfg : Config) (identifier : String)
    (pj : PlayerJson) (md : CaptionTrackMetadata)
    (h : classifyPlayerJson cfg identifier pj = .ok md) :
    (∀ l, md.selectedLanguage = some l → l ≠ "" → l ∈ md.availableLanguages) ∧
    (langTruthy cfg.lang = true → selectedLanguageListed md) := by
  obtain ⟨tracks, -, -, hsb⟩ := classify_ok_inv h
  obtain ⟨t, hsel, hlangEq, havail, -⟩ := selectAndBuild_ok_inv hsb
  have hmem : t ∈ tracks := selectedTrackOf_mem hsel
  have main : ∀ l, md.selectedLanguage = some l → l ≠ "" → l ∈ md.availableLanguages := by
    intro l hl hne
    rw [havail]
    rw [hlangEq] at hl
    refine List.mem_filterMap.mpr ⟨t, hmem, ?_⟩
    simp [jsTruthy, hl, hne]
  refine ⟨main, fun htruthy => ?_⟩
  unfold selectedTrackOf at hsel
  rw [if_pos htruthy] at hsel
  have hEq : t.languageCode = cfg.lang := find?_languageCode_eq hsel
  obtain ⟨l, hcl, hne⟩ : ∃ l, cfg.lang = some l ∧ l ≠ "" := by
    cases hcl : cfg.lang with
    | none => simp [langTruthy, jsTruthy, hcl] at htruthy
    | some l =>
        refine ⟨l, rfl, fun he => ?_⟩
        simp [langTruthy, jsTruthy, hcl, he] at htruthy
  have hml : md.selectedLanguage = some l := by rw [hlangEq, hEq, hcl]
  have := main l hml hne
  simp [selectedLanguageListed, hml]
  exact this

/-- Counterexample for C5 as stated: a playable response whose single
track has no `languageCode` succeeds in discovery, yet the returned
`selectedLanguage` is absent (and `availableLanguages` empty), so the
membership invariant fails. -/
theorem c5_counterexample :
    classifyPlayerJson { } vidId pjNoCode = .ok mdNoCode ∧
    ¬ selectedLanguageListed mdNoCode := by
  refine ⟨by rfl, ?_⟩
  simp [selectedLanguageListed, mdNoCode]

/-- Witness for C5's amended theorem on the concrete happy-path
response, for both an unrequested and a requested language. -/
theorem c5_selected_language_membership_witness :
    "en" ∈ mdHappy.availableLanguages ∧ selectedLanguageListed mdHappy :=
  ⟨(c5_selected_language_membership { } vidId pjGood mdHappy (by rfl)).1
      "en" rfl (by decide),
   (c5_selected_language_membership { lang := some "en" } vidId pjGood mdHappy
      (by rfl)).2 (by decide)⟩

/-! Claim C2. -/

/-- C2 (amended): absence classification — `TranscriptsDisabled` when
playable and `TranscriptNotAvailable` otherwise — applies whenever the
`captions` field is missing or no track-list structure is located under
either path; the present-but-empty (or not-a-proper-array) case is
classified `TranscriptsDisabled` when the `captions` field is present;
and a playable response with zero caption tracks always yields
`TranscriptsDisabled`, never `TranscriptNotAvailable`. -/
theorem c2_caption_classification (cfg : Config) (identifier : String)
    (pj : PlayerJson) :
    ((pj.captions = none ∨ tracklistOf pj = none) → isPlayableOk pj = true →
        classifyPlayerJson cfg identifier pj = .error (.transcriptsDisabled identifier)) ∧
    ((pj.captions = none ∨ tracklistOf pj = none) → isPlayableOk pj = false →
        classifyPlayerJson cfg identifier pj = .error (.transcriptNotAvailable identifier)) ∧
    (pj.captions.isSome = true → ∀ tl, tracklistOf pj = some tl →
        (tl.captionTracks = none ∨ tl.captionTracks = some []) →
        classifyPlayerJson cfg identifier pj = .error (.transcriptsDisabled identifier)) ∧
    (isPlayableOk pj = true → (tracksOf pj = none ∨ tracksOf pj = some []) →
        classifyPlayerJson cfg identifier pj = .error (.transcriptsDisabled identifier)) := by
  have habs : (pj.captions = none ∨ tracklistOf pj = none) →
      (pj.captions.isNone || (tracklistOf pj).isNone) = true := by
    intro h1
    rcases h1 with h | h <;> simp [h]
  have hpres : pj.captions.isSome = true → ∀ tl, tracklistOf pj = some tl →
      (pj.captions.isNone || (tracklistOf pj).isNone) = false := by
    intro hcap tl htl
    rcases Option.isSome_iff_exists.mp hcap with ⟨c, hc⟩
    simp [hc, htl]
  have A : (pj.captions = none ∨ tracklistOf pj = none) → isPlayableOk pj = true →
      classifyPlayerJson cfg identifier pj = .error (.transcriptsDisabled identifier) := by
    intro h1 hpl
    simp [classifyPlayerJson, habs h1, hpl]
  have B : (pj.captions = none ∨ tracklistOf pj = none) → isPlayableOk pj = false →
      classifyPlayerJson cfg identifier pj = .error (.transcriptNotAvailable identifier) := by
    intro h1 hpl
    simp [classifyPlayerJson, habs h1, hpl]
  have C : pj.captions.isSome = true → ∀ tl, tracklistOf pj = some tl →
      (tl.captionTracks = none ∨ tl.captionTracks = some []) →
      classifyPlayerJson cfg identifier pj = .error (.transcriptsDisabled identifier) := by
    intro hcap tl htl hemp
    have htr : tracksOf pj = tl.captionTracks := by simp [tracksOf, htl]
    rcases hemp with h | h <;>
      simp [classifyPlayerJson, hpres hcap tl htl, htr, h]
  refine ⟨A, B, C, ?_⟩
  intro hpl htr
  cases hcap : pj.captions with
  | none => exact A (Or.inl hcap) hpl
  | some c =>
      cases htl : tracklistOf pj with
      | none => exact A (Or.inr htl) hpl
      | some tl =>
          have hcap' : pj.captions.isSome = true := by simp [hcap]
          have htr' : tracksOf pj = tl.captionTracks := by simp [tracksOf, htl]
          rcases htr with h | h
          · exact C hcap' tl htl (Or.inl (htr' ▸ h))
          · exact C hcap' tl htl (Or.inr (htr' ▸ h))

/-- Counterexample for C2 as stated: the track-list structure is present
(at the top level) with an empty track array, playability unconfirmed;
the claim prescribes `TranscriptsDisabled`, but the code, gated on the
`captions` field alone, classifies it `TranscriptNotAvailable`. -/
theorem c2_counterexample :
    tracklistOf pjTopOnlyEmpty = some tracklistEmpty ∧
    tracklistEmpty.captionTracks = some [] ∧
    classifyPlayerJson { } vidId pjTopOnlyEmpty =
      .error (.transcriptNotAvailable vidId) ∧
    classifyPlayerJson { } vidId pjTopOnlyEmpty ≠
      .error (.transcriptsDisabled vidId) := by
  refine ⟨by rfl, by rfl, by rfl, by decide⟩

/-- Witness for C2's amended theorem at the three concrete absence
shapes. -/
theorem c2_caption_classification_witness :
    classifyPlayerJson { } vidId pjAbsentOk = .error (.transcriptsDisabled vidId) ∧
    classifyPlayerJson { } vidId pjAbsentBad = .error (.transcriptNotAvailable vidId) ∧
    classifyPlayerJson { } vidId pjEmptyTracks = .error (.transcriptsDisabled vidId) :=
  ⟨(c2_caption_classification { } vidId pjAbsentOk).1 (Or.inl rfl) rfl,
   (c2_caption_classification { } vidId pjAbsentBad).2.1 (Or.inl rfl) rfl,
   (c2_caption_classification { } vidId pjEmptyTracks).2.2.1 rfl
     tracklistEmpty rfl (Or.inr rfl)⟩

/-! Claim C3. -/

/-- C3 (amended): both candidate nesting paths are checked in order when
locating the track-list structure (nested under `captions` first, then
top level), and a located non-empty track sequence leads into selection
— but only when the `captions` field itself is present; when `captions`
is absent the absence classification fires even if the top-level path
holds a track list, so the second path alone is not sufficient for
success. -/
theorem c3_tracklist_paths (cfg : Config) (identifier : String) (pj : PlayerJson) :
    (∀ c t, pj.captions = some c → c.playerCaptionsTracklistRenderer = some t →
        tracklistOf pj = some t) ∧
    (∀ c, pj.captions = some c → c.playerCaptionsTracklistRenderer = none →
        tracklistOf pj = pj.playerCaptionsTracklistRenderer) ∧
    (∀ tracks, pj.captions.isSome = true → tracksOf pj = some tracks → tracks ≠ [] →
        classifyPlayerJson cfg identifier pj = selectAndBuild cfg identifier tracks) ∧
    (pj.captions = none → isPlayableOk pj = true →
        classifyPlayerJson cfg identifier pj = .error (.transcriptsDisabled identifier)) ∧
    (pj.captions = none → isPlayableOk pj = false →
        classifyPlayerJson cfg identifier pj = .error (.transcriptNotAvailable identifier)) := by
  refine ⟨?_, ?_, ?_, ?_, ?_⟩
  · intro c t hc ht
    simp [tracklistOf, hc, ht]
  · intro c hc hn
    simp [tracklistOf, hc, hn]
  · intro tracks hcap htr hne
    rcases Option.isSome_iff_exists.mp hcap with ⟨c, hc⟩
    obtain ⟨tl, htl, htrk⟩ := Option.bind_eq_some.mp htr
    have h1 : (pj.captions.isNone || (tracklistOf pj).isNone) = false := by
      simp [hc, htl]
    cases tracks with
    | nil => exact absurd rfl hne
    | cons a as =>
        have htr2 : tracksOf pj = some (a :: as) := htr
        simp [classifyPlayerJson, h1, htr2]
  · intro hc hpl
    simp [classifyPlayerJson, hc, hpl]
  · intro hc hpl
    simp [classifyPlayerJson, hc, hpl]

/-- Counterexample for C3 as stated: a playable response whose non-empty
track list is present only under the top-level path is classified as
`TranscriptsDisabled` — the second path alone does not lead discovery to
produce the track sequence. -/
theorem c3_counterexample :
    tracklistOf pjTopOnly = some tracklistEnOnly ∧
    tracksOf pjTopOnly = some [trackEn] ∧
    classifyPlayerJson { } vidId pjTopOnly = .error (.transcriptsDisabled vidId) ∧
    classifyPlayerJson { } vidId pjTopOnly ≠ selectAndBuild { } vidId [trackEn] := by
  refine ⟨by rfl, by rfl, by rfl, by decide⟩

/-- Witness for C3's amended theorem: the nested path on the happy-path
response, the fallback path when `captions` lacks the renderer, and the
hand-off into selection. -/
theorem c3_tracklist_paths_witness :
    tracklistOf pjGood = some tracklistGood ∧
    tracklistOf pjCapNoRenderer = some tracklistGood ∧
    classifyPlayerJson { } vidId pjGood = selectAndBuild { } vidId [trackEn, trackEs] :=
  ⟨(c3_tracklist_paths { } vidId pjGood).1
      { playerCaptionsTracklistRenderer := some tracklistGood } tracklistGood rfl rfl,
   (c3_tracklist_paths { } vidId pjCapNoRenderer).2.1
      { playerCaptionsTracklistRenderer := none } rfl rfl,
   (c3_tracklist_paths { } vidId pjGood).2.2.1 [trackEn, trackEs] rfl rfl (by decide)⟩

/-! Claim C10. -/

/-- C10: when the selected track lacks a (truthy) `baseUrl`, the
pipeline falls back to its `url` field; when both are missing, the
shared discovery fails with `TranscriptNotAvailable` carrying the
identifier, and that failure propagates unchanged to both public
operations. -/
theorem c10_transcript_url_fallback (cfg : Config) (identifier : String)
    (tracks : List CaptionTrack) (t : CaptionTrack)
    (hsel : selectedTrackOf cfg.lang tracks = some t) :
    (t.baseUrl = none → rawTranscriptUrlOf t = jsTruthy t.url) ∧
    (jsTruthy t.baseUrl = none → jsTruthy t.url = none →
        selectAndBuild cfg identifier tracks =
          .error (.transcriptNotAvailable identifier)) ∧
    (∀ env videoId tr,
        _getCaptionTrackMetadata cfg env videoId =
          (.error (.transcriptNotAvailable identifier), tr) →
        (checkTranscriptAvailability cfg env videoId).1 =
          .error (.transcriptNotAvailable identifier) ∧
        (fetchTranscript cfg env videoId).1 =
          .error (.classified (.transcriptNotAvailable identifier))) := by
  refine ⟨?_, ?_, ?_⟩
  · intro h
    simp [rawTranscriptUrlOf, jsTruthy, h]
  · intro hb hu
    unfold selectAndBuild
    rw [hsel]
    simp [rawTranscriptUrlOf, hb, hu]
  · intro env videoId tr hmeta
    constructor
    · unfold checkTranscriptAvailability
      rw [hmeta]
    · unfold fetchTranscript
      rw [hmeta]

/-- Witness for C10: the fallback track and the track with no URL at
all, the latter run through both public operations. -/
theorem c10_transcript_url_fallback_witness :
    rawTranscriptUrlOf trackUrlOnly = some "https://cap.example/u" ∧
    selectAndBuild { } vidId [trackNoUrls] = .error (.transcriptNotAvailable vidId) ∧
    (checkTranscriptAvailability { } envNoUrls vidId).1 =
      .error (.transcriptNotAvailable vidId) ∧
    (fetchTranscript { } envNoUrls vidId).1 =
      .error (.classified (.transcriptNotAvailable vidId)) :=
  ⟨(c10_transcript_url_fallback { } vidId [trackUrlOnly] trackUrlOnly rfl).1 rfl,
   (c10_transcript_url_fallback { } vidId [trackNoUrls] trackNoUrls rfl).2.1 rfl rfl,
   ((c10_transcript_url_fallback { } vidId [trackNoUrls] trackNoUrls rfl).2.2
      envNoUrls vidId [Stage.video, Stage.player] (by rfl)).1,
   ((c10_transcript_url_fallback { } vidId [trackNoUrls] trackNoUrls rfl).2.2
      envNoUrls vidId [Stage.video, Stage.player] (by rfl)).2⟩

/-! Claim C1. -/

/-- C1 (amended): when the cache is configured, discovery succeeded and
the cache holds a deserializable entry, the cached segments are
returned and the transcript-payload transport is not invoked — but the
discovery sequence is not short-circuited: the watch-page and player
transports have both already been invoked, the cache lookup coming only
after discovery. -/
theorem c1_cache_hit_after_discovery (cfg : Config) (env : Env) (videoId : String)
    (segs : List TranscriptResponse) (md : CaptionTrackMetadata) (tr : List Stage)
    (hcache : cfg.cache = true) (hget : env.cacheGet = .parseable segs)
    (hmeta : _getCaptionTrackMetadata cfg env videoId = (.ok md, tr)) :
    fetchTranscript cfg env videoId = (.ok segs, [Stage.video, Stage.player]) := by
  have htr := meta_ok_trace hmeta
  subst htr
  unfold fetchTranscript
  rw [hmeta]
  simp [hcache, hget]

/-- Counterexample for C1 as stated: with a valid cached entry the
cached segments are returned, yet the watch-page and player transports
were both invoked for the call — the cache lookup does not wrap the
discovery sequence. -/
theorem c1_counterexample :
    envCacheHit.cacheGet = .parseable [seg1] ∧
    fetchTranscript cfgCache envCacheHit vidId =
      (.ok [seg1], [Stage.video, Stage.player]) ∧
    Stage.video ∈ (fetchTranscript cfgCache envCacheHit vidId).2 ∧
    Stage.player ∈ (fetchTranscript cfgCache envCacheHit vidId).2 := by
  refine ⟨rfl, by rfl, by decide, by decide⟩

/-- Witness for C1's amended theorem at the concrete cache-hit
environment. -/
theorem c1_cache_hit_after_discovery_witness :
    fetchTranscript cfgCache envCacheHit vidId =
      (.ok [seg1], [Stage.video, Stage.player]) :=
  c1_cache_hit_after_discovery cfgCache envCacheHit vidId [seg1] mdHappy
    [Stage.video, Stage.player] rfl rfl (by rfl)

/-! Claim C4. -/

/-- C4 (amended): an undeserializable cached value is treated exactly as
a miss, and a failing cache store is swallowed (the run is identical
whether or not the store raises, the parsed transcript still being
returned) — but an exception raised by the cache `get` itself is not
swallowed: it escapes to the caller instead of the call proceeding as
on a miss. -/
theorem c4_cache_failure_tolerance (cfg : Config) (env : Env) (videoId : String) :
    (fetchTranscript cfg { env with cacheGet := .unparseable } videoId =
      fetchTranscript cfg { env with cacheGet := .nullOrEmpty } videoId) ∧
    (fetchTranscript cfg { env with cacheSetRaises := true } videoId =
      fetchTranscript cfg { env with cacheSetRaises := false } videoId) ∧
    (∀ md tr, cfg.cache = true →
        _getCaptionTrackMetadata cfg env videoId = (.ok md, tr) →
        (fetchTranscript cfg { env with cacheGet := .raised } videoId).1 =
          .error .cacheGetRaised) := by
  obtain ⟨lang, dh, c⟩ := cfg
  obtain ⟨v, p, pj, t, g, b⟩ := env
  refine ⟨?_, ?_, ?_⟩
  · cases c <;> rfl
  · cases c <;> rfl
  · intro md tr hc hmeta
    have hc' : c = true := hc
    subst hc'
    unfold fetchTranscript
    rw [show _getCaptionTrackMetadata ⟨lang, dh, true⟩ ⟨v, p, pj, t, .raised, b⟩ videoId =
          _getCaptionTrackMetadata ⟨lang, dh, true⟩ ⟨v, p, pj, t, g, b⟩ videoId from rfl,
        hmeta]
    rfl

/-- Counterexample for C4 as stated: with everything else equal, a
cache whose `get` raises makes the call fail with the escaped
exception, while the genuine-miss run succeeds — the call does not
proceed as on a miss. -/
theorem c4_counterexample :
    envCacheRaise.cacheGet = .raised ∧
    fetchTranscript cfgCache envCacheRaise vidId =
      (.error .cacheGetRaised, [Stage.video, Stage.player]) ∧
    fetchTranscript cfgCache envHappy vidId =
      (.ok [{ text := "hello", duration := "1.5", offset := "0.42", lang := some "en" }],
       [Stage.video, Stage.player, Stage.transcript]) := by
  refine ⟨rfl, by rfl, by rfl⟩

/-- Witness for C4's amended theorem at the concrete environments. -/
theorem c4_cache_failure_tolerance_witness :
    fetchTranscript cfgCache { envHappy with cacheGet := .unparseable } vidId =
      fetchTranscript cfgCache { envHappy with cacheGet := .nullOrEmpty } vidId ∧
    (fetchTranscript cfgCache { envHappy with cacheGet := .raised } vidId).1 =
      .error .cacheGetRaised :=
  ⟨(c4_cache_failure_tolerance cfgCache envHappy vidId).1,
   (c4_cache_failure_tolerance cfgCache envHappy vidId).2.2 mdHappy
     [Stage.video, Stage.player] rfl (by rfl)⟩

/-! Claim C7. -/

/-- When discovery succeeded and the cache lookup yields no hit, the
full fetch reduces to the transcript-stage logic. -/
theorem fetchTranscript_after_miss {cfg : Config} {env : Env} {videoId : String}
    {md : CaptionTrackMetadata} {tr : List Stage}
    (hmeta : _getCaptionTrackMetadata cfg env videoId = (.ok md, tr))
    (hmiss : cfg.cache = false ∨ env.cacheGet = .nullOrEmpty ∨
      env.cacheGet = .unparseable) :
    fetchTranscript cfg env videoId =
      if !env.transcriptRes.ok then
        if env.transcriptRes.status = 429 then
          (.error (.classified .tooManyRequests), tr ++ [Stage.transcript])
        else
          (.error (.classified (.transcriptNotAvailable md.identifier)),
           tr ++ [Stage.transcript])
      else if (env.transcriptRes.cues.map (mkSegment cfg.lang md.selectedLanguage)).isEmpty then
        (.error (.classified (.transcriptNotAvailable md.identifier)),
         tr ++ [Stage.transcript])
      else
        (.ok (env.transcriptRes.cues.map (mkSegment cfg.lang md.selectedLanguage)),
         tr ++ [Stage.transcript]) := by
  unfold fetchTranscript
  rw [hmeta]
  cases hx : (cfg.cache && env.cacheSetRaises) <;>
    rcases hmiss with h | h | h <;>
      simp [h, hx]

/-- C7: each well-formed cue record yields exactly one segment, in
source order, with `offset` and `duration` the first and second
captured fields and `text` the third, tagged with the requested
language when one was given and the selected track's code otherwise;
zero matched cues make the fetch fail with `TranscriptNotAvailable`
instead of returning an empty sequence.  (Amended: the never-empty
guarantee covers sequences produced by the parse stage; a cache entry
deserializing to an empty array is still returned as-is.) -/
theorem c7_parse_stage (cfg : Config) (env : Env) (videoId : String)
    (md : CaptionTrackMetadata) (tr : List Stage)
    (hmeta : _getCaptionTrackMetadata cfg env videoId = (.ok md, tr))
    (hmiss : cfg.cache = false ∨ env.cacheGet = .nullOrEmpty ∨
      env.cacheGet = .unparseable)
    (hok : env.transcriptRes.ok = true) :
    (env.transcriptRes.cues ≠ [] →
        fetchTranscript cfg env videoId =
          (.ok (env.transcriptRes.cues.map (mkSegment cfg.lang md.selectedLanguage)),
           tr ++ [Stage.transcript])) ∧
    (env.transcriptRes.cues = [] →
        fetchTranscript cfg env videoId =
          (.error (.classified (.transcriptNotAvailable md.identifier)),
           tr ++ [Stage.transcript])) ∧
    ((env.transcriptRes.cues.map (mkSegment cfg.lang md.selectedLanguage)).length =
        env.transcriptRes.cues.length) ∧
    (∀ i (hi : i < env.transcriptRes.cues.length),
        (env.transcriptRes.cues.map (mkSegment cfg.lang md.selectedLanguage)).get
            ⟨i, by simpa using hi⟩ =
          mkSegment cfg.lang md.selectedLanguage (env.transcriptRes.cues.get ⟨i, hi⟩)) ∧
    (∀ m : Cue, (mkSegment cfg.lang md.selectedLanguage m).offset = m.start ∧
        (mkSegment cfg.lang md.selectedLanguage m).duration = m.dur ∧
        (mkSegment cfg.lang md.selectedLanguage m).text = m.text) ∧
    (∀ l, cfg.lang = some l →
        ∀ m, (mkSegment cfg.lang md.selectedLanguage m).lang = some l) ∧
    (cfg.lang = none →
        ∀ m, (mkSegment cfg.lang md.selectedLanguage m).lang = md.selectedLanguage) ∧
    (∀ segs, (fetchTranscript cfg env videoId).1 = .ok segs → segs ≠ []) := by
  refine ⟨?_, ?_, by simp, ?_, ?_, ?_, ?_, ?_⟩
  · intro hne
    rw [fetchTranscript_after_miss hmeta hmiss]
    have hne' : (env.transcriptRes.cues.map (mkSegment cfg.lang md.selectedLanguage)).isEmpty = false := by
      cases hc : env.transcriptRes.cues with
      | nil => exact absurd hc hne
      | cons a as => simp [hc]
    simp [hok, hne']
  · intro hnil
    rw [fetchTranscript_after_miss hmeta hmiss]
    simp [hok, hnil]
  · intro i hi
    simp
  · intro m
    exact ⟨rfl, rfl, rfl⟩
  · intro l hl m
    simp [mkSegment, hl]
  · intro hn m
    simp [mkSegment, hn]
  · intro segs hsegs
    rw [fetchTranscript_after_miss hmeta hmiss] at hsegs
    rw [hok] at hsegs
    simp only [Bool.not_true] at hsegs
    rw [if_neg (by simp)] at hsegs
    split at hsegs
    · simp at hsegs
    · next hemp =>
        have hseq : env.transcriptRes.cues.map (mkSegment cfg.lang md.selectedLanguage) = segs := by
          simpa using hsegs
        intro hnil
        rw [hseq, hnil] at hemp
        simp at hemp

/-- Counterexample for C7's never-empty corollary as stated: a cache
entry deserializing to the empty array is returned to the caller as an
empty segment sequence. -/
theorem c7_counterexample :
    envCacheEmptyList.cacheGet = .parseable [] ∧
    fetchTranscript cfgCache envCacheEmptyList vidId =
      (.ok [], [Stage.video, Stage.player]) := by
  refine ⟨rfl, by rfl⟩

/-- Witness for C7 on the happy-path environment: the single cue
becomes the single segment with the captured fields in place. -/
theorem c7_parse_stage_witness :
    fetchTranscript { } envHappy vidId =
      (.ok [{ text := "hello", duration := "1.5", offset := "0.42", lang := some "en" }],
       [Stage.video, Stage.player, Stage.transcript]) :=
  (c7_parse_stage { } envHappy vidId mdHappy [Stage.video, Stage.player]
    (by rfl) (Or.inl rfl) rfl).1 (by decide)

end YoutubeTranscriptPlus
